import Mathlib

/-!
Shallow embedding of `src/health_check.py`, a Flask-based process
supervisor with health endpoints for a LiveKit agent service.

Modelling conventions:
* Python module-level globals (`health_status`, `agent_running`,
  `agent_error_count`, `last_agent_restart`) become fields of `GState`.
* Wall-clock time (`time.time()`) is passed in explicitly as a rational
  number; the retry delay arithmetic (30 · 1.5ᵏ capped at 300) is exact
  in binary floating point at every value reached, so ℚ is faithful.
* The opaque worker (`agent.main()`) is modelled by a script of outcomes,
  one per attempt: normal return, KeyboardInterrupt, or an exception.
* The database driver is injected as a `DbOutcome` describing what
  `DatabaseDriver().test_connection()` did on this call.
* `os.getenv` is a function `String → Option String`; Python truthiness
  of the result (`if not os.getenv(var)`) is `getenvTruthy`.
* Thread spawns (`threading.Thread(...).start()`) are counted in the
  operation's result rather than executed.
-/

namespace HealthCheck

/-- The `health_status` global dict of `health_check.py` (lines 29-38). -/
structure HealthStatus where
  status : String
  database : String
  environment : String
  agent : String
  last_check : Option String
  uptime : Int
  error_count : Nat
  last_error : Option String
deriving Repr, DecidableEq

/-- The remaining module-level mutable globals (lines 40-44) together with
`health_status`.  `start_time` is passed separately since it is set once. -/
structure GState where
  health : HealthStatus
  agent_running : Bool
  agent_error_count : Nat
  last_agent_restart : ℚ
deriving Repr, DecidableEq

/-- Initial `health_status` dict (lines 29-38). -/
def initHealthStatus : HealthStatus :=
  { status := "starting"
    database := "unknown"
    environment := "unknown"
    agent := "starting"
    last_check := none
    uptime := 0
    error_count := 0
    last_error := none }

/-- Module-level state right after import: `agent_running = False`,
`agent_error_count = 0`, `last_agent_restart = 0` (lines 40-44). -/
def initState : GState :=
  { health := initHealthStatus
    agent_running := false
    agent_error_count := 0
    last_agent_restart := 0 }

/-- Outcome of one call to `DatabaseDriver().test_connection()`:
either it returned a boolean or construction/call raised. -/
inductive DbOutcome where
  | conn (b : Bool)
  | exn (msg : String)
deriving Repr, DecidableEq

/-- `check_database_health` (lines 46-56): "healthy" when the connection
test returns true, "unhealthy" on a false return or any exception. -/
def check_database_health : DbOutcome → String
  | .conn true => "healthy"
  | .conn false => "unhealthy"
  | .exn _ => "unhealthy"

/-- The `required_vars` list of `check_environment` (lines 60-66). -/
def required_vars : List String :=
  ["LIVEKIT_URL", "LIVEKIT_API_KEY", "LIVEKIT_API_SECRET",
   "OPENAI_API_KEY", "DATABASE_URL"]

/-- Python truthiness of `os.getenv(var)`: `None` and the empty string are
falsy, every other string is truthy (line 70, `if not os.getenv(var)`). -/
def getenvTruthy (env : String → Option String) (v : String) : Bool :=
  match env v with
  | none => false
  | some s => !(s == "")

/-- `', '.join(xs)` (line 74). -/
def joinComma : List String → String
  | [] => ""
  | [a] => a
  | a :: b :: rest => a ++ ", " ++ joinComma (b :: rest)

/-- `check_environment` (lines 58-76): collects every required variable
whose value is unset or empty; returns "healthy" when none are missing,
else "missing: " followed by the comma-joined list of all missing keys. -/
def check_environment (env : String → Option String) : String :=
  let missing_vars := required_vars.filter (fun v => !(getenvTruthy env v))
  if missing_vars.isEmpty then "healthy"
  else "missing: " ++ joinComma missing_vars

/-- `max_retries = 5` (line 82, same literal at lines 128 and 165). -/
def max_retries : Nat := 5

/-- Outcome of one attempt to run `agent.main()` inside `run_agent`:
it returned normally, raised `KeyboardInterrupt`, or raised some other
exception with message `msg`; `t` is the value of `time.time()` observed
in the exception handler. -/
inductive WorkerOutcome where
  | normal
  | interrupt
  | fail (msg : String) (t : ℚ)
deriving Repr

/-- The body of the `except Exception` handler of `run_agent`
(lines 101-107): increment `agent_error_count`, clear `agent_running`,
stamp `last_agent_restart`, and mirror the count and message into
`health_status`. -/
def workerFailStep (s : GState) (msg : String) (t : ℚ) : GState :=
  { s with
    agent_error_count := s.agent_error_count + 1
    agent_running := false
    last_agent_restart := t
    health := { s.health with
      error_count := s.agent_error_count + 1
      last_error := some msg } }

/-- The `while agent_error_count < max_retries` loop of `run_agent`
(lines 85-118), driven by a script giving the outcome of each attempt.
Returns `none` when the script runs out while the worker is still being
run (the real loop would still be blocked inside `main()`), otherwise
the state after the loop (including the final `agent_running = False`
of line 120) paired with the list of durations passed to `time.sleep`,
in order.  Each iteration sets `agent_running = True` (line 88) before
running the worker; on failure, if the new count is still below
`max_retries` the loop sleeps for the current `retry_delay` and then
multiplies it by 1.5 capped at 300 (lines 111-115), else it breaks. -/
def run_agent_go : List WorkerOutcome → GState → ℚ → Option (GState × List ℚ)
  | script, s, retry_delay =>
    if s.agent_error_count < max_retries then
      match script with
      | [] => none
      | o :: rest =>
        let s1 : GState := { s with agent_running := true }
        match o with
        | .normal => some ({ s1 with agent_running := false }, [])
        | .interrupt => some ({ s1 with agent_running := false }, [])
        | .fail msg t =>
          let s2 := workerFailStep s1 msg t
          if s2.agent_error_count < max_retries then
            match run_agent_go rest s2 (min (retry_delay * (3/2)) 300) with
            | none => none
            | some (s3, sleeps) => some (s3, retry_delay :: sleeps)
          else
            some ({ s2 with agent_running := false }, [])
    else
      some ({ s with agent_running := false }, [])

/-- `run_agent` (lines 78-120) with its initial `retry_delay = 30`. -/
def run_agent (script : List WorkerOutcome) (s : GState) :
    Option (GState × List ℚ) :=
  run_agent_go script s 30

/-- `restart_agent_if_needed` (lines 122-143), called from every
`/health` poll.  `now` is the wall-clock time of the call.  Returns the
new state and the number of worker-runner threads spawned: exactly one
when the agent is not running, `agent_error_count < 5`, and more than
300 seconds have passed since `last_agent_restart` (in which case
`last_agent_restart` is stamped after the spawn); otherwise zero, with
the state untouched.  The bounded `join(timeout=10)` on the old thread
handle has no effect on the modelled state. -/
def restart_agent_if_needed (s : GState) (now : ℚ) : GState × Nat :=
  if !s.agent_running && s.agent_error_count < 5
      && now - s.last_agent_restart > 300 then
    ({ s with last_agent_restart := now }, 1)
  else
    (s, 0)

/-- `health_check`, the `/health` handler (lines 145-190), on its
non-raising path.  Inputs: the state, the database driver's behaviour on
this call, the environment, `now = time.time()`, the formatted
`time.strftime(...)` string, and the module's `start_time`.  Returns the
state after `restart_agent_if_needed` and the `health_status.update`
(lines 169-176), the JSON body (the updated `health_status` dict), and
the HTTP status code of line 180. -/
def health_check (s : GState) (db : DbOutcome)
    (env : String → Option String) (now : ℚ) (nowStr : String)
    (start_time : ℚ) : GState × HealthStatus × Nat :=
  let db_status := check_database_health db
  let env_status := check_environment env
  let uptime : Int := Rat.floor (now - start_time)
  let s1 := (restart_agent_if_needed s now).1
  let overall_healthy :=
    db_status == "healthy" && env_status == "healthy"
      && decide (s1.agent_error_count < 5)
  let h : HealthStatus := { s1.health with
    status := if overall_healthy then "healthy" else "unhealthy"
    database := db_status
    environment := env_status
    agent := if s1.agent_running then "running"
             else "stopped (errors: " ++ toString s1.agent_error_count ++ ")"
    last_check := some nowStr
    uptime := uptime }
  let status_code : Nat :=
    if db_status == "healthy" && env_status == "healthy" then 200 else 503
  ({ s1 with health := h }, h, status_code)

/-- `status`, the `/status` handler (lines 192-195): returns the current
`health_status` dict verbatim; no probe runs and no global is written. -/
def statusEndpoint (s : GState) : GState × HealthStatus :=
  (s, s.health)

/-- `restart_agent`, the `/restart` handler (lines 197-229).  `now` is
the wall-clock time at which the request executes (the handler sleeps
but never reads the clock into any global).  It zeroes
`agent_error_count` and the mirrored `health_status` fields, flips
`agent_running` off (after a 2-second grace sleep when it was on), joins
the old thread handle (no state effect), and spawns exactly one new
worker-runner thread.  Returns the new state, the number of threads
spawned, and the JSON acknowledgement status with HTTP code 200. -/
def restart_agent (s : GState) (now : ℚ) : GState × Nat × String × Nat :=
  let _ := now
  let s1 : GState := { s with
    agent_error_count := 0
    health := { s.health with error_count := 0, last_error := none } }
  let s2 : GState :=
    if s1.agent_running then { s1 with agent_running := false } else s1
  (s2, 1, "success", 200)

/-- One externally triggered operation on the shared globals: a single
worker-failure event inside `run_agent`, a normal worker stop (the
`break` at line 96 followed by line 120), a `/health` poll, a `/status`
request, or a `/restart` request. -/
inductive Op where
  | workerFail (msg : String) (t : ℚ)
  | workerNormalStop
  | healthPoll (db : DbOutcome) (env : String → Option String)
      (now : ℚ) (nowStr : String) (start_time : ℚ)
  | statusReq
  | restartReq (now : ℚ)

/-- The effect of each operation on the shared globals. -/
def step (s : GState) : Op → GState
  | .workerFail msg t => workerFailStep s msg t
  | .workerNormalStop => { s with agent_running := false }
  | .healthPoll db env now nowStr st =>
      (health_check s db env now nowStr st).1
  | .statusReq => (statusEndpoint s).1
  | .restartReq now => (restart_agent s now).1

/-! ## Theorems -/

/-- C1: for every `/health` poll, the HTTP status code is 503 whenever the
environment probe reports any missing key (its result is not "healthy"),
regardless of the database probe result; it is 200 exactly when both the
database probe and the environment probe report healthy; and since the code
is a function of the two probe strings alone, agent/worker errors
(`agent_error_count`, exhausted retries) never force a 503. -/
theorem health_check_status_code (s : GState) (db : DbOutcome)
    (env : String → Option String) (now : ℚ) (nowStr : String) (st : ℚ) :
    (health_check s db env now nowStr st).2.2 =
      if check_database_health db = "healthy" ∧ check_environment env = "healthy"
      then 200 else 503 := by
  by_cases h1 : check_database_health db = "healthy" <;>
    by_cases h2 : check_environment env = "healthy" <;>
      simp [health_check, h1, h2]

/-- C3: every invocation of `/restart` (`restart_agent`) resets
`agent_error_count` and the mirrored `health_status["error_count"]` to 0,
clears `health_status["last_error"]`, and spawns exactly one new
worker-runner thread — for any prior state, including retry exhaustion. -/
theorem restart_agent_resets (s : GState) (now : ℚ) :
    (restart_agent s now).1.agent_error_count = 0
    ∧ (restart_agent s now).1.health.error_count = 0
    ∧ (restart_agent s now).1.health.last_error = none
    ∧ (restart_agent s now).2.1 = 1 := by
  by_cases h : s.agent_running <;> simp [restart_agent, h]

/-- C4: `restart_agent_if_needed` (the opportunistic auto-restart run on
every `/health` poll) spawns exactly one fresh worker-runner if and only if
the agent is not running, `agent_error_count < 5`, and more than 300
seconds have elapsed since `last_agent_restart` — in which case the only
state change is stamping `last_agent_restart := now`; in every other state
it spawns nothing and leaves the state (all counters included) unchanged. -/
theorem restart_agent_if_needed_spec (s : GState) (now : ℚ) :
    restart_agent_if_needed s now =
      if s.agent_running = false ∧ s.agent_error_count < 5
          ∧ now - s.last_agent_restart > 300
      then ({ s with last_agent_restart := now }, 1)
      else (s, 0) := by
  by_cases h1 : s.agent_running <;>
    by_cases h2 : s.agent_error_count < 5 <;>
      by_cases h3 : now - s.last_agent_restart > 300 <;>
        simp [restart_agent_if_needed, h1, h2, h3]

/-- C8: `/status` performs no probing and mutates no state: it returns the
current `health_status` verbatim, leaves the globals exactly unchanged
(also as a `step`), and two consecutive calls with no other intervening
activity return identical bodies. -/
theorem status_no_side_effects (s : GState) :
    (statusEndpoint s).1 = s
    ∧ (statusEndpoint s).2 = s.health
    ∧ step s Op.statusReq = s
    ∧ (statusEndpoint (statusEndpoint s).1).2 = (statusEndpoint s).2 := by
  simp [statusEndpoint, step]

/-- A script of five consecutive worker failures (the scenario of C2),
with arbitrary failure timestamps. -/
def script5 : List WorkerOutcome :=
  [.fail "e1" 10, .fail "e2" 20, .fail "e3" 30, .fail "e4" 40, .fail "e5" 50]

/-- The state after `run_agent` processes `script5` from `initState`. -/
def endState5 : GState :=
  { health := { status := "starting", database := "unknown",
                environment := "unknown", agent := "starting",
                last_check := none, uptime := 0,
                error_count := 5, last_error := some "e5" },
    agent_running := false, agent_error_count := 5,
    last_agent_restart := 50 }

/-- C2 counterexample: on five consecutive worker failures under the
default policy, the worker-runner loop sleeps only four times — for
30, 45, 67.5 and 101.25 seconds — not the five sleeps
(30, 45, 67.5, 101.25, 151.875) the claim states: after the fifth failure
`agent_error_count = max_retries` and the loop breaks without sleeping,
so 151.875 is computed as the next delay but never passed to
`time.sleep`. -/
theorem run_agent_five_failures_cex :
    (run_agent script5 initState).map (fun p => p.2) =
      some ([30, 45, 135/2, 405/4] : List ℚ)
    ∧ some ([30, 45, 135/2, 405/4] : List ℚ) ≠
      some ([30, 45, 135/2, 405/4, 1215/8] : List ℚ) := by
  constructor
  · simp [run_agent, run_agent_go, workerFailStep, script5, initState,
      initHealthStatus, max_retries, min_def]
    norm_num
  · simp

/-- C2 amended: if the worker fails 5 consecutive times under the default
policy (initial delay 30 s, growth factor 1.5, cap 300 s,
`max_retries = 5`), the worker-runner loop sleeps for the delays 30, 45,
67.5 and 101.25 seconds (in that order, one sleep after each of the first
four failures; after the fifth failure the loop halts immediately without
sleeping), the loop terminates with no further automatic restart from
that loop (`run_agent` returns `some`), and `error_count` equals 5. -/
theorem run_agent_five_failures :
    run_agent script5 initState = some (endState5, [30, 45, 135/2, 405/4])
    ∧ endState5.agent_error_count = 5
    ∧ endState5.health.error_count = 5
    ∧ endState5.agent_running = false := by
  refine ⟨?_, rfl, rfl, rfl⟩
  simp [run_agent, run_agent_go, workerFailStep, script5, initState,
    initHealthStatus, max_retries, min_def, endState5]
  norm_num

/-- A state whose `last_agent_restart` is 100, used to exhibit that the
manual-restart handler never writes that global. -/
def sPre : GState := { initState with last_agent_restart := 100 }

/-- C7 counterexample: a manual restart executed at wall-clock time 500
against a state whose `last_agent_restart` is 100 leaves
`last_agent_restart` at 100 — the `/restart` handler contains no
assignment to `last_agent_restart`, so it does not equal the timestamp of
the manual restart attempt. -/
theorem manual_restart_last_restart_cex :
    (restart_agent sPre 500).1.last_agent_restart = 100
    ∧ (100 : ℚ) ≠ 500 := by
  exact ⟨rfl, by norm_num⟩

/-- C7 amended: automatic restart paths stamp `last_agent_restart` with
the current time — `restart_agent_if_needed` sets it to `now` whenever it
spawns, and the worker-failure handler sets it to the failure time — but
the manual `/restart` handler leaves `last_agent_restart` unchanged. -/
theorem last_restart_time_spec (s : GState) (now : ℚ) (msg : String) :
    ((restart_agent_if_needed s now).2 = 1 →
      (restart_agent_if_needed s now).1.last_agent_restart = now)
    ∧ (workerFailStep s msg now).last_agent_restart = now
    ∧ (restart_agent s now).1.last_agent_restart = s.last_agent_restart := by
  refine ⟨?_, rfl, ?_⟩
  · by_cases h : !s.agent_running && s.agent_error_count < 5
        && now - s.last_agent_restart > 300 <;>
      simp [restart_agent_if_needed, h]
  · by_cases h : s.agent_running <;> simp [restart_agent, h]

/-- Witness for C7's amended theorem at a concrete spawning state. -/
theorem last_restart_time_spec_witness :
    (restart_agent_if_needed initState 1000).1.last_agent_restart = 1000 :=
  (last_restart_time_spec initState 1000 "e").1
    (by norm_num [restart_agent_if_needed, initState])

/-- `restart_agent_if_needed` never changes `agent_error_count`,
`health_status`, or `agent_running` — it only stamps
`last_agent_restart` when it spawns. -/
theorem restart_agent_if_needed_preserves (s : GState) (now : ℚ) :
    (restart_agent_if_needed s now).1.agent_error_count = s.agent_error_count
    ∧ (restart_agent_if_needed s now).1.health = s.health
    ∧ (restart_agent_if_needed s now).1.agent_running = s.agent_running := by
  by_cases h : !s.agent_running && s.agent_error_count < 5
      && now - s.last_agent_restart > 300 <;>
    simp [restart_agent_if_needed, h]

/-- C9: on a `/health` poll where the database and environment probes both
report healthy but `agent_error_count` has reached `max_retries`, the
HTTP status code is 200 while the body's top-level `status` field is
"unhealthy": the code (line 180) tests only the two probes while the body
status (lines 162-170) additionally tests `agent_error_count < 5`. -/
theorem health_check_code_body_disagree (s : GState) (db : DbOutcome)
    (env : String → Option String) (now : ℚ) (nowStr : String) (st : ℚ)
    (hdb : check_database_health db = "healthy")
    (henv : check_environment env = "healthy")
    (herr : 5 ≤ s.agent_error_count) :
    (health_check s db env now nowStr st).2.2 = 200
    ∧ (health_check s db env now nowStr st).2.1.status = "unhealthy" := by
  have h5 : ¬ (restart_agent_if_needed s now).1.agent_error_count < 5 := by
    rw [(restart_agent_if_needed_preserves s now).1]; omega
  simp [health_check, hdb, henv, h5]

/-- A state with the retry budget exhausted but both probes healthy. -/
def sExhausted : GState := { initState with agent_error_count := 5 }

/-- Witness for C9 at a concrete exhausted state with healthy probes. -/
theorem health_check_code_body_disagree_witness :
    (health_check sExhausted (DbOutcome.conn true) (fun _ => some "x")
        1000 "ts" 0).2.2 = 200
    ∧ (health_check sExhausted (DbOutcome.conn true) (fun _ => some "x")
        1000 "ts" 0).2.1.status = "unhealthy" :=
  health_check_code_body_disagree sExhausted (DbOutcome.conn true)
    (fun _ => some "x") 1000 "ts" 0 rfl (by decide) (by decide)

/-- C5: over every state and every operation, `agent_error_count`
increases only by a worker-failure event (by exactly 1 per failure),
becomes 0 only via the manual `/restart` action (or was already 0, as at
a fresh process start, whose `initState` has count 0), and is left
unchanged by `/health` polls, `/status` requests, and normal worker
stops; moreover the mirror `health_status["error_count"] =
agent_error_count` is preserved by every operation. -/
theorem error_count_transitions (s : GState) :
    (∀ msg t, (step s (Op.workerFail msg t)).agent_error_count
      = s.agent_error_count + 1)
    ∧ (∀ now, (step s (Op.restartReq now)).agent_error_count = 0)
    ∧ (∀ db env now nowStr st,
        (step s (Op.healthPoll db env now nowStr st)).agent_error_count
          = s.agent_error_count)
    ∧ (step s Op.statusReq).agent_error_count = s.agent_error_count
    ∧ (step s Op.workerNormalStop).agent_error_count = s.agent_error_count
    ∧ (∀ op, (step s op).agent_error_count = 0 →
        s.agent_error_count = 0 ∨ ∃ now, op = Op.restartReq now)
    ∧ (∀ op, s.health.error_count = s.agent_error_count →
        (step s op).health.error_count = (step s op).agent_error_count)
    ∧ initState.agent_error_count = 0 := by
  refine ⟨?_, ?_, ?_, ?_, ?_, ?_, ?_, rfl⟩
  · intro msg t; simp [step, workerFailStep]
  · intro now; by_cases h : s.agent_running <;> simp [step, restart_agent, h]
  · intro db env now nowStr st
    simp [step, health_check, (restart_agent_if_needed_preserves s now).1]
  · rfl
  · rfl
  · intro op h
    cases op with
    | workerFail msg t => simp [step, workerFailStep] at h
    | workerNormalStop => exact Or.inl h
    | healthPoll db env now nowStr st =>
        rw [step, health_check] at h
        simp only at h
        rw [(restart_agent_if_needed_preserves s now).1] at h
        exact Or.inl h
    | statusReq => exact Or.inl h
    | restartReq now => exact Or.inr ⟨now, rfl⟩
  · intro op hmirror
    cases op with
    | workerFail msg t => simp [step, workerFailStep]
    | workerNormalStop => simpa [step] using hmirror
    | healthPoll db env now nowStr st =>
        have hp := restart_agent_if_needed_preserves s now
        simp [step, health_check, hp.1, hp.2.1, hmirror]
    | statusReq => simpa [step, statusEndpoint] using hmirror
    | restartReq now =>
        by_cases h : s.agent_running <;> simp [step, restart_agent, h]

/-- Witness for C5's implications, at the initial state and a `/status`
request: a count of 0 after the step implies it was 0 before (no restart
occurred), and the `error_count` mirror is preserved. -/
theorem error_count_transitions_witness :
    (initState.agent_error_count = 0 ∨ ∃ now, Op.statusReq = Op.restartReq now)
    ∧ (step initState Op.statusReq).health.error_count
      = (step initState Op.statusReq).agent_error_count :=
  ⟨(error_count_transitions initState).2.2.2.2.2.1 Op.statusReq (by rfl),
   (error_count_transitions initState).2.2.2.2.2.2.1 Op.statusReq (by rfl)⟩

/-- Python truthiness of `os.getenv(v)` holds exactly when the variable
is present with a non-empty value. -/
theorem getenvTruthy_iff (env : String → Option String) (v : String) :
    getenvTruthy env v = true ↔ ∃ s, env v = some s ∧ s ≠ "" := by
  unfold getenvTruthy
  cases h : env v with
  | none => simp
  | some s => simp

/-- Every element of a list occurs inside its comma-join. -/
theorem joinComma_mem (v : String) :
    ∀ l : List String, v ∈ l → ∃ pre post, joinComma l = pre ++ (v ++ post)
  | [], h => absurd h (List.not_mem_nil v)
  | [a], h => by
      simp only [List.mem_singleton] at h
      subst h
      exact ⟨"", "", by simp [joinComma]⟩
  | a :: b :: rest, h => by
      rcases List.mem_cons.mp h with h1 | h2
      · subst h1
        exact ⟨"", ", " ++ joinComma (b :: rest),
          by simp [joinComma, String.append_assoc]⟩
      · obtain ⟨pre, post, hp⟩ := joinComma_mem v (b :: rest) h2
        exact ⟨a ++ ", " ++ pre, post,
          by simp [joinComma, hp, String.append_assoc]⟩

/-- Unfolding of `check_environment` with its `let` inlined. -/
theorem check_environment_def (env : String → Option String) :
    check_environment env =
      if (required_vars.filter (fun v => !(getenvTruthy env v))).isEmpty
      then "healthy"
      else "missing: "
        ++ joinComma (required_vars.filter (fun v => !(getenvTruthy env v))) :=
  rfl

/-- `check_environment` returns "healthy" exactly when no required
variable is missing. -/
theorem check_environment_eq_healthy_iff (env : String → Option String) :
    check_environment env = "healthy" ↔
      required_vars.filter (fun v => !(getenvTruthy env v)) = [] := by
  rw [check_environment_def]
  rcases hf : required_vars.filter (fun v => !(getenvTruthy env v))
      with _ | ⟨a, t⟩
  · simp
  · simp only [List.isEmpty_cons, Bool.false_eq_true, if_false,
      reduceCtorEq, iff_false]
    intro hcontra
    have hlen := congrArg String.length hcontra
    rw [String.length_append] at hlen
    have h9 : ("missing: " : String).length = 9 := rfl
    have h7 : ("healthy" : String).length = 7 := rfl
    omega

/-- An environment with only the three LiveKit keys set. -/
def envFirstThree : String → Option String := fun v =>
  if v = "LIVEKIT_URL" ∨ v = "LIVEKIT_API_KEY" ∨ v = "LIVEKIT_API_SECRET"
  then some "x" else none

/-- C6: the environment probe returns "healthy" iff all five required
keys are present with non-empty values; any missing key is named inside
the returned "missing" string (every absent key, not just the first); and
for every environment in which exactly the first three keys are set, the
result names exactly the remaining two keys: OPENAI_API_KEY (the
AI-service API key) and DATABASE_URL (the database connection string). -/
theorem check_environment_spec (env : String → Option String) :
    (check_environment env = "healthy" ↔
      ∀ v ∈ required_vars, ∃ s, env v = some s ∧ s ≠ "")
    ∧ (∀ v ∈ required_vars, getenvTruthy env v = false →
        ∃ pre post, check_environment env = pre ++ (v ++ post))
    ∧ (∀ env2 : String → Option String,
        getenvTruthy env2 "LIVEKIT_URL" = true →
        getenvTruthy env2 "LIVEKIT_API_KEY" = true →
        getenvTruthy env2 "LIVEKIT_API_SECRET" = true →
        getenvTruthy env2 "OPENAI_API_KEY" = false →
        getenvTruthy env2 "DATABASE_URL" = false →
        check_environment env2 = "missing: OPENAI_API_KEY, DATABASE_URL") := by
  refine ⟨?_, ?_, ?_⟩
  · rw [check_environment_eq_healthy_iff, List.filter_eq_nil_iff]
    constructor
    · intro h v hv
      rw [← getenvTruthy_iff]
      have := h v hv
      simpa using this
    · intro h v hv
      have := (getenvTruthy_iff env v).mpr (h v hv)
      simp [this]
  · intro v hv hfalse
    have hvf : v ∈ required_vars.filter (fun u => !(getenvTruthy env u)) :=
      List.mem_filter.mpr ⟨hv, by simp [hfalse]⟩
    have hne : (required_vars.filter
        (fun u => !(getenvTruthy env u))).isEmpty = false := by
      rcases hf : required_vars.filter (fun u => !(getenvTruthy env u))
          with _ | ⟨a, t⟩
      · rw [hf] at hvf; simp at hvf
      · rfl
    obtain ⟨pre, post, hj⟩ :=
      joinComma_mem v (required_vars.filter (fun u => !(getenvTruthy env u))) hvf
    refine ⟨"missing: " ++ pre, post, ?_⟩
    rw [check_environment_def]
    simp [hne, hj, String.append_assoc]
  · intro env2 h1 h2 h3 h4 h5
    unfold check_environment required_vars
    simp [List.filter, h1, h2, h3, h4, h5, joinComma]

/-- Witness for C6: a fully populated environment is healthy, and an
environment with only the three LiveKit keys reports exactly the two
remaining keys as missing. -/
theorem check_environment_spec_witness :
    check_environment (fun _ => some "x") = "healthy"
    ∧ check_environment envFirstThree
      = "missing: OPENAI_API_KEY, DATABASE_URL" :=
  ⟨(check_environment_spec (fun _ => some "x")).1.mpr
      (fun v _ => ⟨"x", rfl, by decide⟩),
   (check_environment_spec envFirstThree).2.2 envFirstThree
      (by decide) (by decide) (by decide) (by decide) (by decide)⟩

end HealthCheck
